import Mathlib

/-!
# Verification of the GNodeGUI `GraphicsNode` gesture core

Shallow embedding of `src/GNodeGUI/src/graphics_node.cpp` (namespace
`gngui`): the node view's hover tracker, connection-drag state machine,
cross-node event relay (`sceneEventFilter`) and the per-port presentation
mapping from `paint`.

Modelling conventions:
* `QPointF` becomes `Point` over `Int`; `QRectF` becomes `Rect` with a
  decidable `contains`.
* The external `NodeProxy` collaborator is a record of the data the view
  reads from it (id, caption, per-port direction / data type / caption).
  Indexed proxy accessors return `Option`: `none` models an out-of-bounds
  read, which in the C++ is undefined behaviour.  An event handler that
  performs such a read returns `none` as a whole.
* `std::vector<bool> is_port_hovered` becomes `List Bool`; out-of-range
  `List.set` is a no-op and reads use `getD`, with well-formedness
  (`GraphicsNode.wf`) tying the list lengths to the proxy's port count
  exactly as the constructor does (`resize(get_nports())`).
* Qt signals (`Q_EMIT`) become values of the `Signal` type accumulated in
  a list; a view is identified in a signal by its proxy's stable id.
* The scene is a list of `Item`s (a `GraphicsNode` or some other graphics
  item); `dynamic_cast<GraphicsNode*>` becomes a `match` on `Item`.
-/

namespace GNodeGUI

/-- A scene/item coordinate pair (`QPointF`). -/
structure Point where
  x : Int
  y : Int
deriving DecidableEq, Repr

/-- Pointwise difference, as in `mouse_event->scenePos() - this->scenePos()`. -/
def Point.sub (p q : Point) : Point := ⟨p.x - q.x, p.y - q.y⟩

/-- An axis-aligned rectangle (`QRectF`), kept as its two corners. -/
structure Rect where
  x0 : Int
  y0 : Int
  x1 : Int
  y1 : Int
deriving DecidableEq, Repr

/-- Embeds `QRectF::contains` for our integer rectangles. -/
def Rect.contains (r : Rect) (p : Point) : Bool :=
  r.x0 ≤ p.x && p.x ≤ r.x1 && r.y0 ≤ p.y && p.y ≤ r.y1

/-- Port direction (`gngui::PortType`). -/
inductive PortType where
  | IN : PortType
  | OUT : PortType
deriving DecidableEq, Repr

/-- The read-only face of the external `NodeProxy` collaborator: stable id,
node caption, and the per-port direction / data-type / caption sequences
(index-aligned). -/
structure NodeProxy where
  id : String
  caption : String
  port_types : List PortType
  data_types : List String
  port_captions : List String
deriving DecidableEq, Repr

/-- Embeds `NodeProxy::get_nports`. -/
def NodeProxy.get_nports (p : NodeProxy) : Nat := p.port_types.length

/-- Embeds `NodeProxy::get_port_type(k)`; `none` models an out-of-bounds read. -/
def NodeProxy.get_port_type (p : NodeProxy) (k : Nat) : Option PortType :=
  p.port_types.get? k

/-- Embeds `NodeProxy::get_data_type(k)`; `none` models an out-of-bounds read. -/
def NodeProxy.get_data_type (p : NodeProxy) (k : Nat) : Option String :=
  p.data_types.get? k

/-- Embeds `NodeProxy::get_port_caption(k)`; `none` models an out-of-bounds read. -/
def NodeProxy.get_port_caption (p : NodeProxy) (k : Nat) : Option String :=
  p.port_captions.get? k

/-- The mutable state of a `gngui::GraphicsNode` view, together with the
geometry inputs the handlers read (`geometry.port_rects`, `scenePos()`) and
the `ItemIsMovable` flag the drag machine toggles. -/
structure GraphicsNode where
  p_node_proxy : NodeProxy
  /-- Embeds `geometry.port_rects`, index-aligned with the proxy ports. -/
  port_rects : List Rect
  /-- Embeds `this->scenePos()`: the view's own position in scene coordinates. -/
  scene_pos : Point
  is_selected : Bool
  is_node_hovered : Bool
  is_port_hovered : List Bool
  has_connection_started : Bool
  port_index_from : Nat
  data_type_connecting : String
  /-- the `QGraphicsItem::ItemIsMovable` flag. -/
  is_movable : Bool
deriving DecidableEq, Repr

/-- Consistency the constructor establishes: the hover vector is resized to
`get_nports()` and the geometry provides one hit rectangle per port, with
the proxy's per-port sequences index-aligned. -/
def GraphicsNode.wf (n : GraphicsNode) : Prop :=
  n.is_port_hovered.length = n.p_node_proxy.get_nports ∧
  n.port_rects.length = n.p_node_proxy.get_nports ∧
  n.p_node_proxy.data_types.length = n.p_node_proxy.get_nports ∧
  n.p_node_proxy.port_captions.length = n.p_node_proxy.get_nports

instance (n : GraphicsNode) : Decidable n.wf := by
  unfold GraphicsNode.wf; infer_instance

/-- Embeds `GraphicsNode::get_hovered_port_index`: index of the first `true` entry
of `is_port_hovered`, or `none` (the C++ returns `-1`). -/
def GraphicsNode.get_hovered_port_index (n : GraphicsNode) : Option Nat :=
  n.is_port_hovered.findIdx? (fun b => b)

/-- Embeds `GraphicsNode::update_is_port_hovered(item_pos)`.  First loop: the first
port whose hit rectangle contains the point gets its flag set and the
function returns `true` at once (no other flag is touched).  Second loop:
otherwise the first flag still `true` is cleared and the function returns
`true`.  Otherwise `false`. -/
def GraphicsNode.update_is_port_hovered (n : GraphicsNode) (item_pos : Point) :
    GraphicsNode × Bool :=
  match n.port_rects.findIdx? (fun r => r.contains item_pos) with
  | some k => ({ n with is_port_hovered := n.is_port_hovered.set k true }, true)
  | none =>
    match n.is_port_hovered.findIdx? (fun b => b) with
    | some k => ({ n with is_port_hovered := n.is_port_hovered.set k false }, true)
    | none => (n, false)

/-- Embeds `GraphicsNode::reset_is_port_hovered`: `assign(size(), false)`. -/
def GraphicsNode.reset_is_port_hovered (n : GraphicsNode) : GraphicsNode :=
  { n with is_port_hovered := List.replicate n.is_port_hovered.length false }

/-- Embeds `GraphicsNode::hoverMoveEvent`: with no item transform,
`mapToScene(pos) - scenePos() = pos`, so the handler runs the hover update
at the event's item position (the `update()` redraw request is elided). -/
def GraphicsNode.hoverMoveEvent (n : GraphicsNode) (pos : Point) : GraphicsNode :=
  (n.update_is_port_hovered pos).1

/-- Embeds `GraphicsNode::hoverEnterEvent`. -/
def GraphicsNode.hoverEnterEvent (n : GraphicsNode) : GraphicsNode :=
  { n with is_node_hovered := true }

/-- Embeds `GraphicsNode::hoverLeaveEvent`. -/
def GraphicsNode.hoverLeaveEvent (n : GraphicsNode) : GraphicsNode :=
  { n with is_node_hovered := false }

/-- The mouse buttons the handlers distinguish (`Qt::LeftButton` is the
primary button, `Qt::RightButton` the secondary one). -/
inductive Button where
  | LeftButton : Button
  | RightButton : Button
  | OtherButton : Button
deriving DecidableEq, Repr

/-- The signals the view emits (`Q_EMIT`); a view is named by its proxy's
stable id. -/
inductive Signal where
  | connection_started (origin_id : String) (port_index : Nat)
  | connection_finished (origin_id : String) (port_index_from : Nat)
      (target_id : String) (target_port_index : Nat)
  | connection_dropped (origin_id : String) (port_index : Nat) (scene_pos : Point)
  | right_clicked (node_id : String) (pos : Point)
deriving DecidableEq, Repr

/-- A graphics item in the scene: either a `GraphicsNode` or some other
item (`dynamic_cast<GraphicsNode*>` succeeds only on the former). -/
inductive Item where
  | node : GraphicsNode → Item
  | other : Item
deriving DecidableEq, Repr

/-- Embeds `GraphicsNode::mousePressEvent`.  The left branch consults the CURRENT
hover state (`get_hovered_port_index`), not the press position; on a
hovered port it starts the drag, clears `ItemIsMovable`, records the origin
port index and its data type, and emits `connection_started`.  The right
branch emits `right_clicked` with `this->scenePos()` — the event's own
scene position `event_scene_pos` is not used there.  `none` models an
out-of-bounds `get_data_type` read. -/
def GraphicsNode.mousePressEvent (n : GraphicsNode) (button : Button)
    (event_scene_pos : Point) : Option (GraphicsNode × List Signal) :=
  match button with
  | Button.LeftButton =>
    match n.get_hovered_port_index with
    | some hovered_port_index =>
      match n.p_node_proxy.get_data_type hovered_port_index with
      | some dt =>
          some ({ n with has_connection_started := true,
                         is_movable := false,
                         port_index_from := hovered_port_index,
                         data_type_connecting := dt },
                [Signal.connection_started n.p_node_proxy.id hovered_port_index])
      | none => none
    | none => some (n, [])
  | Button.RightButton =>
      some (n, [Signal.right_clicked n.p_node_proxy.id n.scene_pos])
  | Button.OtherButton => some (n, [])

/-- The release handler's loop over `scene()->items(event->scenePos())`:
skip non-node items; at the FIRST node, either emit `connection_finished`
(if it has a hovered port) or leave `is_dropped` set, and break either
way.  Returns (`is_dropped`, emitted signals). -/
def GraphicsNode.release_scan (self : GraphicsNode) : List Item → Bool × List Signal
  | [] => (true, [])
  | Item.other :: rest => self.release_scan rest
  | Item.node target_node :: _ =>
      match target_node.get_hovered_port_index with
      | some hovered_port_index =>
          (false, [Signal.connection_finished self.p_node_proxy.id
                     self.port_index_from target_node.p_node_proxy.id
                     hovered_port_index])
      | none => (true, [])

/-- Embeds `GraphicsNode::mouseReleaseEvent`.  `items_under_mouse` is
`scene()->items(event->scenePos())` in front-to-back stacking order;
`scene_others` are the other items of `scene()->items()` (the clean-up loop
also visits `this`, whose own clean-up the source performs explicitly, so
the two presentations coincide).  Returns the updated origin, the updated
rest of the scene, and the emitted signals in emission order. -/
def GraphicsNode.mouseReleaseEvent (self : GraphicsNode) (button : Button)
    (items_under_mouse : List Item) (scene_others : List Item)
    (release_scene_pos : Point) :
    GraphicsNode × List Item × List Signal :=
  match button with
  | Button.LeftButton =>
    if self.has_connection_started then
      let scan := self.release_scan items_under_mouse
      let self1 := self.reset_is_port_hovered
      let drop_sigs :=
        if scan.1 then
          [Signal.connection_dropped self.p_node_proxy.id self.port_index_from
             release_scene_pos]
        else []
      let self2 := { self1 with has_connection_started := false }
      let others :=
        scene_others.map (fun item =>
          match item with
          | Item.node node => Item.node { node with data_type_connecting := "" }
          | Item.other => Item.other)
      let self3 := { self2 with data_type_connecting := "", is_movable := true }
      (self3, others, scan.2 ++ drop_sigs)
    else (self, scene_others, [])
  | _ => (self, scene_others, [])

/-- One iteration of the compatibility loop in
`GraphicsNode::sceneEventFilter`: if port `k` of `self` is hovered, read
the origin's (`node`'s) port direction and data type at `port_index_from`
and `self`'s at `k`, and clear the flag when the directions agree or the
data types differ.  A `none` result models an out-of-bounds metadata
read. -/
def GraphicsNode.compat_step (self : GraphicsNode) (node : GraphicsNode)
    (k : Nat) : Option GraphicsNode :=
  if self.is_port_hovered.getD k false then
    match node.p_node_proxy.get_port_type node.port_index_from,
          self.p_node_proxy.get_port_type k,
          node.p_node_proxy.get_data_type node.port_index_from,
          self.p_node_proxy.get_data_type k with
    | some from_ptype, some to_ptype, some from_pdata, some to_pdata =>
        if from_ptype = to_ptype ∨ from_pdata ≠ to_pdata then
          some { self with is_port_hovered := self.is_port_hovered.set k false }
        else some self
    | _, _, _, _ => none
  else some self

/-- The compatibility loop of `sceneEventFilter`, over the port indices of
`self` in order. -/
def GraphicsNode.compat_loop (self : GraphicsNode) (node : GraphicsNode) :
    List Nat → Option GraphicsNode
  | [] => some self
  | k :: ks =>
    match self.compat_step node k with
    | some s => s.compat_loop node ks
    | none => none

/-- The events the scene filter distinguishes
(`QEvent::GraphicsSceneMouseMove` with its scene position, or anything
else). -/
inductive QEvent where
  | graphicsSceneMouseMove (scene_pos : Point) : QEvent
  | otherEvent : QEvent
deriving DecidableEq, Repr

/-- Embeds `GraphicsNode::sceneEventFilter(watched, event)`: `self` is the view
the filter runs on (a candidate link target), `watched` the item it was
installed on (the drag origin).  On a scene mouse-move while `watched` is a
node with a started connection: convert to `self`'s item coordinates,
mirror `data_type_connecting` from the origin if it differs, run the hover
update, and if it reported a change run the compatibility loop over all of
`self`'s ports.  `none` models an out-of-bounds metadata read inside that
loop. -/
def GraphicsNode.sceneEventFilter (self : GraphicsNode) (watched : Item)
    (event : QEvent) : Option GraphicsNode :=
  match watched, event with
  | Item.node node, QEvent.graphicsSceneMouseMove ev_scene_pos =>
    if node.has_connection_started then
      let item_pos := ev_scene_pos.sub self.scene_pos
      let self1 :=
        if self.data_type_connecting ≠ node.data_type_connecting then
          { self with data_type_connecting := node.data_type_connecting }
        else self
      let upd := self1.update_is_port_hovered item_pos
      if upd.2 then
        upd.1.compat_loop node (List.range self.p_node_proxy.get_nports)
      else some upd.1
    else some self
  | _, _ => some self

/-- A `QPen`: color and line thickness. -/
structure Pen where
  color : String
  thickness : Nat
deriving DecidableEq, Repr

/-- The style constants `paint` reads from `style.node`. -/
structure NodeStyle where
  color_bg : String
  color_caption : String
  color_selected : String
  color_border : String
  color_border_hovered : String
  color_port_hovered : String
  color_port_not_selectable : String
  thickness_selected : Nat
  thickness_hovered : Nat
  thickness_border : Nat
  port_radius : Nat
  port_radius_not_selectable : Nat
deriving DecidableEq, Repr

/-- The body border pen chosen in `paint`: selected, else node-hovered,
else default. -/
def body_border_pen (style : NodeStyle) (n : GraphicsNode) : Pen :=
  if n.is_selected then Pen.mk style.color_selected style.thickness_selected
  else if n.is_node_hovered then
    Pen.mk style.color_border_hovered style.thickness_hovered
  else Pen.mk style.color_border style.thickness_border

/-- The per-port outline pen chosen in `paint`'s port loop: the port's own
hover flag selects `(color_port_hovered, thickness_selected)`, else the
node-hover flag selects `(color_border_hovered, thickness_hovered)`, else
the default `(color_border, thickness_border)`. -/
def port_outline_pen (style : NodeStyle) (n : GraphicsNode) (k : Nat) : Pen :=
  if n.is_port_hovered.getD k false then
    Pen.mk style.color_port_hovered style.thickness_selected
  else if n.is_node_hovered then
    Pen.mk style.color_border_hovered style.thickness_hovered
  else Pen.mk style.color_border style.thickness_border

/-- The per-port brush and radius chosen in `paint`'s port loop: a port
whose data type differs from a non-empty `data_type_connecting` renders
not-selectable (muted color, smaller radius); otherwise the type-to-color
mapping `color_of` applies at the normal radius. -/
def port_brush_radius (style : NodeStyle) (color_of : String → String)
    (n : GraphicsNode) (k : Nat) : String × Nat :=
  let data_type := (n.p_node_proxy.get_data_type k).getD ""
  if n.data_type_connecting ≠ "" ∧ data_type ≠ n.data_type_connecting then
    (style.color_port_not_selectable, style.port_radius_not_selectable)
  else (color_of data_type, style.port_radius)

/-- The drawing primitives `paint` issues, in order. -/
inductive DrawCmd where
  | fillRoundedRect (brush : String)
  | captionText (pen : String) (s : String)
  | borderRoundedRect (pen : Pen)
  | portLabel (k : Nat) (alignLeft : Bool) (s : String)
  | portCircle (k : Nat) (outline : Pen) (brush : String) (radius : Nat)
deriving DecidableEq, Repr

/-- Embeds `GraphicsNode::paint` as the list of primitives it draws: background
fill, caption (selection color when selected), body border, then per port
a white label (left-aligned for IN) and the port circle with the pens and
brush above.  `color_of` stands for the external
`get_color_from_data_type`. -/
def GraphicsNode.paint (n : GraphicsNode) (style : NodeStyle)
    (color_of : String → String) : List DrawCmd :=
  [DrawCmd.fillRoundedRect style.color_bg,
   DrawCmd.captionText
     (if n.is_selected then style.color_selected else style.color_caption)
     n.p_node_proxy.caption,
   DrawCmd.borderRoundedRect (body_border_pen style n)] ++
  (List.range n.p_node_proxy.get_nports).flatMap (fun k =>
    [DrawCmd.portLabel k
       (n.p_node_proxy.get_port_type k == some PortType.IN)
       ((n.p_node_proxy.get_port_caption k).getD ""),
     DrawCmd.portCircle k (port_outline_pen style n k)
       (port_brush_radius style color_of n k).1
       (port_brush_radius style color_of n k).2])

/-! ## Concrete fixtures used by counterexamples and witnesses -/

/-- A proxy with two OUT float ports. -/
def proxy_out2 : NodeProxy :=
  { id := "n1", caption := "node 1",
    port_types := [PortType.OUT, PortType.OUT],
    data_types := ["float", "float"],
    port_captions := ["a", "b"] }

/-- A view of `proxy_out2` whose port 0 is already hovered; two disjoint
port rectangles. -/
def hover_cex_node : GraphicsNode :=
  { p_node_proxy := proxy_out2,
    port_rects := [⟨0, 0, 10, 10⟩, ⟨20, 0, 30, 10⟩],
    scene_pos := ⟨0, 0⟩,
    is_selected := false, is_node_hovered := false,
    is_port_hovered := [true, false],
    has_connection_started := false, port_index_from := 0,
    data_type_connecting := "", is_movable := true }

/-- The same view with no port hovered. -/
def hover_clean_node : GraphicsNode :=
  { hover_cex_node with is_port_hovered := [false, false] }

/-! ## Helper lemmas -/

lemma count_true_set_true_le_one (l : List Bool) (k : Nat)
    (h : ∀ b ∈ l, b = false) : (l.set k true).count true ≤ 1 := by
  induction l generalizing k with
  | nil => simp
  | cons a t ih =>
    have ha : a = false := h a (List.mem_cons_self a t)
    have ht : ∀ b ∈ t, b = false := fun b hb => h b (List.mem_cons_of_mem a hb)
    have htc : t.count true = 0 := by
      rw [List.count_eq_zero]
      intro hmem
      exact Bool.false_ne_true ((ht true hmem).symm)
    cases k with
    | zero =>
      simp [List.set, List.count_cons, htc]
    | succ k =>
      have := ih k ht
      simpa [List.set, List.count_cons, ha] using this

lemma count_true_eq_zero_of_all_false (l : List Bool)
    (h : ∀ b ∈ l, b = false) : l.count true = 0 := by
  rw [List.count_eq_zero]
  intro hmem
  exact Bool.false_ne_true ((h true hmem).symm)

lemma getD_set_true_self (l : List Bool) (k : Nat) (hk : k < l.length) :
    (l.set k true).getD k false = true := by
  induction l generalizing k with
  | nil => simp at hk
  | cons a t ih =>
    cases k with
    | zero => simp [List.set]
    | succ k =>
      have hk' : k < t.length := by simpa using hk
      simpa [List.set] using ih k hk'

lemma all_false_of_count_true_eq_zero (l : List Bool)
    (h : l.count true = 0) : ∀ b ∈ l, b = false := by
  intro b hb
  cases b with
  | false => rfl
  | true => exact absurd h (by simp [List.count_eq_zero, hb])

lemma findIdx?_some_lt_length {α : Type} (q : α → Bool) (l : List α) (k : Nat)
    (h : l.findIdx? q = some k) : k < l.length :=
  (List.findIdx?_eq_some_iff_findIdx_eq.mp h).1

lemma findIdx_true_set_true (l : List Bool) (k : Nat) (hk : k < l.length)
    (hall : ∀ b ∈ l, b = false) :
    (l.set k true).findIdx? (fun b => b) = some k := by
  induction l generalizing k with
  | nil => simp at hk
  | cons a t ih =>
    cases k with
    | zero => simp [List.set]
    | succ k =>
      have ha : a = false := hall a (List.mem_cons_self a t)
      have ht : ∀ b ∈ t, b = false := fun b hb => hall b (List.mem_cons_of_mem a hb)
      have hk' : k < t.length := by simpa using hk
      simp [List.set, ha, List.findIdx?_succ, ih k hk' ht]

/-- The left-press branch when a port is hovered: the source starts the
drag from the first hovered index and captures that port's data type. -/
lemma mousePressEvent_left_of_hovered (n : GNodeGUI.GraphicsNode) (sp : Point)
    (k : Nat) (dt : String)
    (hh : n.get_hovered_port_index = some k)
    (hdt : n.p_node_proxy.get_data_type k = some dt) :
    n.mousePressEvent Button.LeftButton sp =
      some ({ n with has_connection_started := true, is_movable := false,
                     port_index_from := k, data_type_connecting := dt },
            [Signal.connection_started n.p_node_proxy.id k]) := by
  simp only [GraphicsNode.mousePressEvent, hh, hdt]

/-- The left-press branch when no port is hovered: the handler does not
touch the state and emits nothing. -/
lemma mousePressEvent_left_of_not_hovered (n : GNodeGUI.GraphicsNode)
    (sp : Point) (hh : n.get_hovered_port_index = none) :
    n.mousePressEvent Button.LeftButton sp = some (n, []) := by
  simp only [GraphicsNode.mousePressEvent, hh]

/-! ## C4 — hover exclusivity of `update_is_port_hovered` -/

/-- C4, counterexample.  The claim asserts that a single call to
`update_is_port_hovered` leaves at most one `portHovered` entry true and
clears all other ports' flags on a hit.  From the I1-satisfying state
`[true, false]`, a call whose point lies in port 1's rectangle returns
immediately after setting port 1's flag, leaving BOTH flags true. -/
theorem C4_counterexample :
    hover_cex_node.wf ∧
    hover_cex_node.is_port_hovered.count true ≤ 1 ∧
    (hover_cex_node.update_is_port_hovered ⟨25, 5⟩).1.is_port_hovered
      = [true, true] ∧
    ¬ ((hover_cex_node.update_is_port_hovered
        ⟨25, 5⟩).1.is_port_hovered.count true ≤ 1) := by
  decide

/-- C4, amended: a call that hits a port's rectangle marks that (first hit)
port hovered and does NOT clear the other flags; "at most one entry true
after the call" holds when the call starts from an all-false hover state
(as the no-hit branch clears only the first hovered flag, a state with two
stale flags can also survive a no-hit call with one flag still set). -/
theorem C4_amended_single_hover (n : GNodeGUI.GraphicsNode) (p : GNodeGUI.Point)
    (h0 : n.is_port_hovered.count true = 0) :
    (n.update_is_port_hovered p).1.is_port_hovered.count true ≤ 1 ∧
    ∀ k, k < n.is_port_hovered.length →
      n.port_rects.findIdx? (fun r => r.contains p) = some k →
      (n.update_is_port_hovered p).1.is_port_hovered.getD k false = true := by
  have hall := all_false_of_count_true_eq_zero _ h0
  cases hfind : n.port_rects.findIdx? (fun r => r.contains p) with
  | some k =>
    have hupd : (n.update_is_port_hovered p).1
        = { n with is_port_hovered := n.is_port_hovered.set k true } := by
      unfold GraphicsNode.update_is_port_hovered
      rw [hfind]
    rw [hupd]
    refine ⟨count_true_set_true_le_one _ _ hall, ?_⟩
    intro k' hk' hfind'
    injection hfind' with hkk
    subst hkk
    exact getD_set_true_self _ _ hk'
  | none =>
    have hflags : n.is_port_hovered.findIdx? (fun b => b) = none := by
      rw [List.findIdx?_eq_none_iff]
      intro b hb
      exact hall b hb
    have hupd : (n.update_is_port_hovered p).1 = n := by
      unfold GraphicsNode.update_is_port_hovered
      rw [hfind, hflags]
    rw [hupd]
    refine ⟨by omega, ?_⟩
    intro k' _ hfind'
    exact Option.noConfusion hfind'

/-- C4, witness for the amended theorem at a concrete input. -/
theorem C4_amended_witness :
    hover_clean_node.is_port_hovered.count true = 0 ∧
    (hover_clean_node.update_is_port_hovered
      ⟨5, 5⟩).1.is_port_hovered.count true ≤ 1 :=
  ⟨by decide,
   (C4_amended_single_hover hover_clean_node ⟨5, 5⟩ (by decide)).1⟩

/-! ## C5 — a press on a (hovered) port starts the drag -/

/-- C5, counterexample.  The claim says every primary press whose position
hits a port rectangle starts the drag with `originPortIndex` equal to THAT
port's index.  But the press handler consults the hover state, whose scan
returns the FIRST hovered index: from the stale (and reachable, see C3 and
C4) hover state `[true, false]`, a press at a position inside port 1's
rectangle runs the hover update (→ `[true, true]`) and then starts the
drag from port 0, emitting `connection_started` with index 0, not 1. -/
theorem C5_counterexample :
    hover_cex_node.port_rects.findIdx?
      (fun r => r.contains ⟨25, 5⟩) = some 1 ∧
    (hover_cex_node.hoverMoveEvent ⟨25, 5⟩).mousePressEvent
        Button.LeftButton ⟨25, 5⟩ =
      some ({ hover_cex_node with
                is_port_hovered := [true, true]
                has_connection_started := true
                is_movable := false
                port_index_from := 0
                data_type_connecting := "float" },
            [Signal.connection_started "n1" 0]) ∧
    (0 : Nat) ≠ 1 := by
  decide

/-- C5, amended: a primary press starts the drag from the view's FIRST
hovered port index at press time (capturing that port's data type,
clearing the movable flag and emitting `connection_started`), which equals
the index of the port rectangle the press position hits only when the
pre-press hover state is clean.  From a clean hover state, the hover
update at the press position followed by `mousePressEvent` with the left
button behaves exactly as claimed: a position hitting port `k`'s rectangle
leaves the view with `has_connection_started`, `port_index_from = k`,
`data_type_connecting` equal to port `k`'s data type, the movable flag
cleared, and `connection_started` emitted; a position hitting no port
leaves the state unchanged (Idle) with no signal. -/
theorem C5_press_on_port_starts_drag (n : GNodeGUI.GraphicsNode)
    (p sp : GNodeGUI.Point) (hwf : n.wf)
    (h0 : n.is_port_hovered.count true = 0) :
    match n.port_rects.findIdx? (fun r => r.contains p) with
    | some k =>
        (n.hoverMoveEvent p).mousePressEvent Button.LeftButton sp =
          some ({ n with is_port_hovered := n.is_port_hovered.set k true,
                         has_connection_started := true,
                         is_movable := false,
                         port_index_from := k,
                         data_type_connecting :=
                           (n.p_node_proxy.get_data_type k).getD "" },
                [Signal.connection_started n.p_node_proxy.id k])
    | none =>
        (n.hoverMoveEvent p).mousePressEvent Button.LeftButton sp =
          some (n, []) := by
  have hall := all_false_of_count_true_eq_zero _ h0
  obtain ⟨hlen_h, hlen_r, hlen_d, _⟩ := hwf
  cases hfind : n.port_rects.findIdx? (fun r => r.contains p) with
  | some k =>
    show (n.hoverMoveEvent p).mousePressEvent Button.LeftButton sp =
      some ({ n with is_port_hovered := n.is_port_hovered.set k true,
                     has_connection_started := true,
                     is_movable := false,
                     port_index_from := k,
                     data_type_connecting :=
                       (n.p_node_proxy.get_data_type k).getD "" },
            [Signal.connection_started n.p_node_proxy.id k])
    have hk : k < n.port_rects.length := findIdx?_some_lt_length _ _ _ hfind
    have hk' : k < n.is_port_hovered.length := by omega
    have hmove : n.hoverMoveEvent p
        = { n with is_port_hovered := n.is_port_hovered.set k true } := by
      unfold GraphicsNode.hoverMoveEvent GraphicsNode.update_is_port_hovered
      rw [hfind]
    have hhov : ({ n with is_port_hovered := n.is_port_hovered.set k true }
        : GraphicsNode).get_hovered_port_index = some k := by
      unfold GraphicsNode.get_hovered_port_index
      exact findIdx_true_set_true _ _ hk' hall
    have hkd : k < n.p_node_proxy.data_types.length := by
      unfold NodeProxy.get_nports at hlen_d hlen_r
      omega
    have hdt : n.p_node_proxy.get_data_type k
        = some (n.p_node_proxy.data_types.get ⟨k, hkd⟩) :=
      List.get?_eq_get hkd
    rw [hmove, mousePressEvent_left_of_hovered _ sp k _ hhov hdt, hdt]
    rfl
  | none =>
    show (n.hoverMoveEvent p).mousePressEvent Button.LeftButton sp = some (n, [])
    have hflags : n.is_port_hovered.findIdx? (fun b => b) = none := by
      rw [List.findIdx?_eq_none_iff]
      intro b hb
      exact hall b hb
    have hmove : n.hoverMoveEvent p = n := by
      unfold GraphicsNode.hoverMoveEvent GraphicsNode.update_is_port_hovered
      rw [hfind, hflags]
    rw [hmove]
    exact mousePressEvent_left_of_not_hovered n sp hflags

/-! ## Relay lemmas shared by C2, C6 and C7 -/

lemma getD_true_lt_length (l : List Bool) (k : Nat)
    (h : l.getD k false = true) : k < l.length := by
  by_contra hk
  rw [List.getD_eq_default] at h
  · exact Bool.false_ne_true h
  · omega

lemma getD_set_false_mono (l : List Bool) (k j : Nat)
    (h : (l.set k false).getD j false = true) : l.getD j false = true := by
  induction l generalizing k j with
  | nil => simpa [List.set] using h
  | cons a t ih =>
    cases k with
    | zero =>
      cases j with
      | zero => simpa [List.set] using h
      | succ j => simpa [List.set] using h
    | succ k =>
      cases j with
      | zero => simpa [List.set] using h
      | succ j => exact ih k j (by simpa [List.set] using h)

/-- The function `update_is_port_hovered` only rewrites the hover flags: the result is
the input with `is_port_hovered` replaced by a list of the same length. -/
lemma update_is_port_hovered_shape (n : GNodeGUI.GraphicsNode) (p : GNodeGUI.Point) :
    ∃ fl, (n.update_is_port_hovered p).1 = { n with is_port_hovered := fl } ∧
      fl.length = n.is_port_hovered.length := by
  unfold GraphicsNode.update_is_port_hovered
  cases n.port_rects.findIdx? (fun r => r.contains p) with
  | some k => exact ⟨n.is_port_hovered.set k true, rfl, by simp⟩
  | none =>
    cases n.is_port_hovered.findIdx? (fun b => b) with
    | some k => exact ⟨n.is_port_hovered.set k false, rfl, by simp⟩
    | none => exact ⟨n.is_port_hovered, rfl, rfl⟩

/-- When `update_is_port_hovered` reports no change, it left the state
untouched and no flag is set. -/
lemma update_is_port_hovered_false (n : GNodeGUI.GraphicsNode) (p : GNodeGUI.Point)
    (h : (n.update_is_port_hovered p).2 = false) :
    (n.update_is_port_hovered p).1 = n ∧ ∀ b ∈ n.is_port_hovered, b = false := by
  unfold GraphicsNode.update_is_port_hovered at h ⊢
  split at h
  · simp at h
  · split at h
    · simp at h
    · rename_i hf
      exact ⟨rfl, List.findIdx?_eq_none_iff.mp hf⟩

/-- Changing only `data_type_connecting` does not affect the hover
update's decision or flags. -/
lemma update_is_port_hovered_mirror (n : GNodeGUI.GraphicsNode)
    (d : String) (p : GNodeGUI.Point) :
    ({ n with data_type_connecting := d } : GraphicsNode).update_is_port_hovered p =
      ({ (n.update_is_port_hovered p).1 with data_type_connecting := d },
       (n.update_is_port_hovered p).2) := by
  unfold GraphicsNode.update_is_port_hovered
  cases n.port_rects.findIdx? (fun r => r.contains p) with
  | some k => rfl
  | none =>
    cases n.is_port_hovered.findIdx? (fun b => b) with
    | some k => rfl
    | none => rfl

/-- The compatibility rule of 4.3, read off the relay's check: the origin's
port at `port_index_from` and `self`'s port `k` both exist, their
directions differ, and their data types coincide. -/
def compatible_ports (node self : GNodeGUI.GraphicsNode) (k : Nat) : Prop :=
  (node.p_node_proxy.get_port_type node.port_index_from).isSome = true ∧
  (self.p_node_proxy.get_port_type k).isSome = true ∧
  node.p_node_proxy.get_port_type node.port_index_from ≠
    self.p_node_proxy.get_port_type k ∧
  (node.p_node_proxy.get_data_type node.port_index_from).isSome = true ∧
  node.p_node_proxy.get_data_type node.port_index_from =
    self.p_node_proxy.get_data_type k

instance (node self : GNodeGUI.GraphicsNode) (k : Nat) :
    Decidable (compatible_ports node self k) := by
  unfold compatible_ports; infer_instance

/-- One compatibility step either leaves the state alone or clears flag
`k`; and if flag `k` survives a step at `k`, the step found the ports
compatible. -/
lemma compat_step_shape (self node : GNodeGUI.GraphicsNode) (k : Nat)
    (s' : GNodeGUI.GraphicsNode) (h : self.compat_step node k = some s') :
    (s' = self ∨
      s' = { self with is_port_hovered := self.is_port_hovered.set k false }) ∧
    (s'.is_port_hovered.getD k false = true → compatible_ports node self k) := by
  unfold GraphicsNode.compat_step at h
  by_cases hh : self.is_port_hovered.getD k false
  · rw [if_pos hh] at h
    cases hft : node.p_node_proxy.get_port_type node.port_index_from with
    | none => rw [hft] at h; simp at h
    | some ft =>
      cases htt : self.p_node_proxy.get_port_type k with
      | none => rw [hft, htt] at h; simp at h
      | some tt =>
        cases hfd : node.p_node_proxy.get_data_type node.port_index_from with
        | none => rw [hft, htt, hfd] at h; simp at h
        | some fd =>
          cases htd : self.p_node_proxy.get_data_type k with
          | none => rw [hft, htt, hfd, htd] at h; simp at h
          | some td =>
            rw [hft, htt, hfd, htd] at h
            dsimp only at h
            by_cases hbad : ft = tt ∨ fd ≠ td
            · rw [if_pos hbad] at h
              injection h with h
              subst h
              refine ⟨Or.inr rfl, ?_⟩
              intro habs
              have hlt : k < self.is_port_hovered.length := getD_true_lt_length _ _ hh
              rw [List.getD_eq_getElem?_getD, List.getElem?_set_self] at habs
              · simp at habs
              · simpa using hlt
            · rw [if_neg hbad] at h
              injection h with h
              subst h
              push_neg at hbad
              refine ⟨Or.inl rfl, fun _ => ?_⟩
              refine ⟨by rw [hft]; rfl, by rw [htt]; rfl, ?_, by rw [hfd]; rfl, ?_⟩
              · rw [hft, htt]
                simpa using hbad.1
              · rw [hfd, htd]
                simpa using hbad.2
  · rw [if_neg hh] at h
    injection h with h
    subst h
    exact ⟨Or.inl rfl, fun habs => absurd habs (by simpa using hh)⟩

/-- The compatibility loop only clears hover flags; all other fields
survive, and any flag true afterwards was true before. -/
lemma compat_loop_shape (node : GNodeGUI.GraphicsNode) :
    ∀ (ks : List Nat) (self s' : GNodeGUI.GraphicsNode),
      self.compat_loop node ks = some s' →
      (∃ fl, s' = { self with is_port_hovered := fl }) ∧
      ∀ j, s'.is_port_hovered.getD j false = true →
        self.is_port_hovered.getD j false = true := by
  intro ks
  induction ks with
  | nil =>
    intro self s' h
    injection h with h
    subst h
    exact ⟨⟨self.is_port_hovered, rfl⟩, fun j hj => hj⟩
  | cons k ks ih =>
    intro self s' h
    unfold GraphicsNode.compat_loop at h
    cases hstep : self.compat_step node k with
    | none => rw [hstep] at h; exact Option.noConfusion h
    | some s1 =>
      rw [hstep] at h
      obtain ⟨⟨fl, hfl⟩, hmono⟩ := ih s1 s' h
      obtain ⟨hsh, _⟩ := compat_step_shape self node k s1 hstep
      cases hsh with
      | inl h1 =>
        subst h1
        exact ⟨⟨fl, hfl⟩, hmono⟩
      | inr h1 =>
        subst h1
        refine ⟨⟨fl, by rw [hfl]⟩, fun j hj => ?_⟩
        exact getD_set_false_mono _ _ _ (hmono j hj)

/-- After the compatibility loop, a flag that is still set at an index the
loop visited passes the compatibility rule (against the proxies, which the
loop does not change). -/
lemma compat_loop_compatible (node : GNodeGUI.GraphicsNode) :
    ∀ (ks : List Nat) (self s' : GNodeGUI.GraphicsNode),
      self.compat_loop node ks = some s' →
      ∀ k ∈ ks, s'.is_port_hovered.getD k false = true →
        compatible_ports node self k := by
  intro ks
  induction ks with
  | nil =>
    intro self s' _ k hk
    exact absurd hk (List.not_mem_nil k)
  | cons k0 ks ih =>
    intro self s' h k hk hkhov
    unfold GraphicsNode.compat_loop at h
    cases hstep : self.compat_step node k0 with
    | none => rw [hstep] at h; exact Option.noConfusion h
    | some s1 =>
      rw [hstep] at h
      obtain ⟨hsh, hcomp⟩ := compat_step_shape self node k0 s1 hstep
      rcases List.mem_cons.mp hk with hk0 | hks
      · subst hk0
        have hs1 : s1.is_port_hovered.getD k false = true :=
          (compat_loop_shape node ks s1 s' h).2 k hkhov
        have := hcomp hs1
        cases hsh with
        | inl h1 => exact this
        | inr h1 => exact this
      · have := ih s1 s' h k hks hkhov
        cases hsh with
        | inl h1 => subst h1; exact this
        | inr h1 =>
          subst h1
          exact this

lemma getD_false_of_all_false (l : List Bool) (h : ∀ b ∈ l, b = false)
    (k : Nat) : l.getD k false = false := by
  induction l generalizing k with
  | nil => simp
  | cons a t ih =>
    cases k with
    | zero => simpa using h a (List.mem_cons_self a t)
    | succ k => simpa using ih (fun b hb => h b (List.mem_cons_of_mem a hb)) k

lemma exists_getD_true_of_any (l : List Bool) (h : l.any (fun b => b) = true) :
    ∃ k, k < l.length ∧ l.getD k false = true := by
  induction l with
  | nil => simp at h
  | cons a t ih =>
    cases a with
    | true => exact ⟨0, by simp, rfl⟩
    | false =>
      have ht : t.any (fun b => b) = true := by simpa using h
      obtain ⟨k, hk, hg⟩ := ih ht
      exact ⟨k + 1, by simpa using hk, by simpa using hg⟩

/-- The scene filter on a mouse move whose watched item is a node with a
started connection, rewritten without the internal conditional mirror (if
the data types already agree, overwriting is the identity). -/
lemma sceneEventFilter_move_eq (self node : GNodeGUI.GraphicsNode)
    (sp : GNodeGUI.Point) (hstart : node.has_connection_started = true) :
    self.sceneEventFilter (Item.node node)
        (QEvent.graphicsSceneMouseMove sp) =
      (if (({ self with data_type_connecting := node.data_type_connecting }
            : GraphicsNode).update_is_port_hovered (sp.sub self.scene_pos)).2 then
         (({ self with data_type_connecting := node.data_type_connecting }
            : GraphicsNode).update_is_port_hovered (sp.sub self.scene_pos)).1.compat_loop
           node (List.range self.p_node_proxy.get_nports)
       else
         some (({ self with data_type_connecting := node.data_type_connecting }
            : GraphicsNode).update_is_port_hovered (sp.sub self.scene_pos)).1) := by
  simp only [GraphicsNode.sceneEventFilter]
  rw [if_pos hstart]
  by_cases hd : self.data_type_connecting ≠ node.data_type_connecting
  · rw [if_pos hd]
  · rw [if_neg hd]
    push_neg at hd
    rw [← hd]

/-! ## Fixtures for the relay claims -/

/-- The origin view mid-drag: drag started from port 0 (OUT, "float"). -/
def origin_started : GraphicsNode :=
  { hover_cex_node with
    has_connection_started := true, is_movable := false
    port_index_from := 0, data_type_connecting := "float" }

/-- The same origin with a stale out-of-range origin port index (the graph
changed mid-drag). -/
def origin_bad_index : GraphicsNode :=
  { origin_started with port_index_from := 5 }

/-- A proxy with one IN float port. -/
def proxy_in_float : NodeProxy :=
  { id := "n2", caption := "node 2",
    port_types := [PortType.IN], data_types := ["float"],
    port_captions := ["in"] }

/-- A candidate target view of `proxy_in_float`, no hover, at scene
position (100, 0) with its port rectangle in item coordinates. -/
def target_node_clean : GraphicsNode :=
  { p_node_proxy := proxy_in_float,
    port_rects := [⟨0, 0, 10, 10⟩],
    scene_pos := ⟨100, 0⟩,
    is_selected := false, is_node_hovered := false,
    is_port_hovered := [false],
    has_connection_started := false, port_index_from := 0,
    data_type_connecting := "", is_movable := true }

/-- The view `target_node_clean` after the relayed move at scene point (105, 5):
mirrored data type and port 0 hovered (and kept, being compatible). -/
def target_after_move : GraphicsNode :=
  { target_node_clean with
    data_type_connecting := "float"
    is_port_hovered := [true] }

/-! ## C2 — the relay never leaves an incompatible port hovered -/

/-- C2, confirmed (in strengthened form): after a relayed pointer-move
processed by a view while the watched origin has a started connection,
EVERY port still hovered on that view satisfies the compatibility rule
(direction differs from the origin port's, data type equal) — in
particular a port that just became hovered is immediately un-hovered
unless compatible, so an incompatible port is never left hovered by a
relayed move. -/
theorem C2_relay_clears_incompatible (self node : GNodeGUI.GraphicsNode)
    (sp : GNodeGUI.Point) (s' : GNodeGUI.GraphicsNode)
    (hstart : node.has_connection_started = true)
    (hwf : self.is_port_hovered.length = self.p_node_proxy.get_nports)
    (h : self.sceneEventFilter (Item.node node)
          (QEvent.graphicsSceneMouseMove sp) = some s') :
    ∀ k, s'.is_port_hovered.getD k false = true →
      compatible_ports node self k := by
  rw [sceneEventFilter_move_eq self node sp hstart] at h
  intro k hk
  by_cases hupd : (({ self with data_type_connecting := node.data_type_connecting }
      : GraphicsNode).update_is_port_hovered (sp.sub self.scene_pos)).2
  · rw [if_pos hupd] at h
    have hmono := (compat_loop_shape node _ _ _ h).2 k hk
    obtain ⟨fl2, hfl2, hlen2⟩ := update_is_port_hovered_shape
      { self with data_type_connecting := node.data_type_connecting }
      (sp.sub self.scene_pos)
    have hklt := getD_true_lt_length _ _ hmono
    rw [hfl2] at hklt
    simp only at hklt
    rw [hlen2] at hklt
    have hkrange : k ∈ List.range self.p_node_proxy.get_nports :=
      List.mem_range.mpr (by
        simpa [hwf] using hklt)
    have := compat_loop_compatible node _ _ _ h k hkrange hk
    rw [hfl2] at this
    exact this
  · rw [if_neg hupd] at h
    injection h with h
    subst h
    obtain ⟨hid, hall⟩ := update_is_port_hovered_false
      { self with data_type_connecting := node.data_type_connecting }
      (sp.sub self.scene_pos) (by simpa using hupd)
    rw [hid] at hk
    have : (({ self with data_type_connecting := node.data_type_connecting }
        : GraphicsNode).is_port_hovered).getD k false = false :=
      getD_false_of_all_false _ hall k
    rw [hk] at this
    exact absurd this (by simp)

/-- C2, witness: the origin mid-drag from an OUT float port; the relayed
move hovers the target's IN float port, which survives the update and is
indeed compatible. -/
theorem C2_witness :
    origin_started.has_connection_started = true ∧
    target_node_clean.is_port_hovered.length
      = target_node_clean.p_node_proxy.get_nports ∧
    target_node_clean.sceneEventFilter (Item.node origin_started)
      (QEvent.graphicsSceneMouseMove ⟨105, 5⟩) = some target_after_move ∧
    compatible_ports origin_started target_node_clean 0 :=
  ⟨by decide, by decide, by decide,
   C2_relay_clears_incompatible target_node_clean origin_started ⟨105, 5⟩
     target_after_move (by decide) (by decide) (by decide) 0 (by decide)⟩

/-! ## C6 — propagation of `connectingDataType` -/

/-- The host toolkit's dispatch of a press: the event reaches the view at
scene index `i` alone, whose `mousePressEvent` runs; no other item's state
is touched (each view mutates only its own fields). -/
def scene_mousePressEvent (scene : List Item) (i : Nat) (button : Button)
    (sp : Point) : Option (List Item × List Signal) :=
  match scene.get? i with
  | some (Item.node n) =>
    match n.mousePressEvent button sp with
    | some (n', sigs) => some (scene.set i (Item.node n'), sigs)
    | none => none
  | _ => some (scene, [])

/-- A two-view scene: the (not yet started) origin and a clean candidate
target. -/
def press_scene : List Item :=
  [Item.node hover_cex_node, Item.node target_node_clean]

/-- C6, counterexample.  The claim requires every view's
`connectingDataType` to equal the origin port's data type from the moment
the drag starts, before any relayed move.  A left press on the origin
(hovered port 0, type "float") starts the drag and sets the origin's
`data_type_connecting`, but the other view in the scene still carries the
empty string. -/
theorem C6_counterexample :
    scene_mousePressEvent press_scene 0 Button.LeftButton ⟨5, 5⟩ =
      some ([Item.node origin_started, Item.node target_node_clean],
            [Signal.connection_started "n1" 0]) ∧
    origin_started.has_connection_started = true ∧
    origin_started.data_type_connecting = "float" ∧
    target_node_clean.data_type_connecting = "" ∧
    ("" : String) ≠ "float" := by
  refine ⟨by decide, by decide, by decide, by decide, ?_⟩
  intro habs
  exact absurd habs (by decide)

/-- C6, amended: the invariant holds view-by-view as the relay reaches it —
a view that processes a relayed move while the origin's connection is
started leaves the handler with its `connectingDataType` equal to the
origin's (the mirror step); views not yet reached keep their previous
value, and immediately after the press only the origin's is set. -/
theorem C6_amended_mirror_on_relay (self node : GNodeGUI.GraphicsNode)
    (sp : GNodeGUI.Point) (s' : GNodeGUI.GraphicsNode)
    (hstart : node.has_connection_started = true)
    (h : self.sceneEventFilter (Item.node node)
          (QEvent.graphicsSceneMouseMove sp) = some s') :
    s'.data_type_connecting = node.data_type_connecting := by
  rw [sceneEventFilter_move_eq self node sp hstart] at h
  by_cases hupd : (({ self with data_type_connecting := node.data_type_connecting }
      : GraphicsNode).update_is_port_hovered (sp.sub self.scene_pos)).2
  · rw [if_pos hupd] at h
    obtain ⟨⟨fl, hfl⟩, _⟩ := compat_loop_shape node _ _ _ h
    obtain ⟨fl2, hfl2, _⟩ := update_is_port_hovered_shape
      { self with data_type_connecting := node.data_type_connecting }
      (sp.sub self.scene_pos)
    rw [hfl, hfl2]
  · rw [if_neg hupd] at h
    injection h with h
    subst h
    obtain ⟨fl2, hfl2, _⟩ := update_is_port_hovered_shape
      { self with data_type_connecting := node.data_type_connecting }
      (sp.sub self.scene_pos)
    rw [hfl2]

/-- C6, witness for the amended mirror theorem at a concrete relayed
move. -/
theorem C6_amended_witness :
    origin_started.has_connection_started = true ∧
    target_node_clean.sceneEventFilter (Item.node origin_started)
      (QEvent.graphicsSceneMouseMove ⟨105, 5⟩) = some target_after_move ∧
    target_after_move.data_type_connecting
      = origin_started.data_type_connecting :=
  ⟨by decide, by decide,
   C6_amended_mirror_on_relay target_node_clean origin_started ⟨105, 5⟩
     target_after_move (by decide) (by decide)⟩

/-! ## C7 — out-of-range origin port index during the relay -/

/-- With the origin's recorded port index out of range, the compatibility
loop faults (reads port metadata out of bounds) at the first hovered
index it visits. -/
lemma compat_loop_oob (node : GNodeGUI.GraphicsNode)
    (hoob : node.p_node_proxy.get_port_type node.port_index_from = none) :
    ∀ (ks : List Nat) (self : GNodeGUI.GraphicsNode),
      (∃ k ∈ ks, self.is_port_hovered.getD k false = true) →
      self.compat_loop node ks = none := by
  intro ks
  induction ks with
  | nil =>
    rintro self ⟨k, hk, _⟩
    exact absurd hk (List.not_mem_nil k)
  | cons k0 ks ih =>
    rintro self ⟨k, hk, hkhov⟩
    unfold GraphicsNode.compat_loop
    by_cases hh : self.is_port_hovered.getD k0 false
    · have hstep : self.compat_step node k0 = none := by
        unfold GraphicsNode.compat_step
        rw [if_pos hh, hoob]
      rw [hstep]
    · have hkk : k ≠ k0 := fun e => hh (e ▸ hkhov)
      have hk' : k ∈ ks := by
        rcases List.mem_cons.mp hk with e | m
        · exact absurd e hkk
        · exact m
      have hstep : self.compat_step node k0 = some self := by
        unfold GraphicsNode.compat_step
        rw [if_neg hh]
      rw [hstep]
      exact ih self ⟨k, hk', hkhov⟩

/-- C7, counterexample.  The claim says a relay referencing a port index
outside the origin's port count is ignored as a no-op.  Instead, the
handler reads the origin's port metadata at the stale index with no bounds
check: in the embedding the handler faults (`none`) rather than returning
the state unchanged. -/
theorem C7_counterexample :
    origin_bad_index.has_connection_started = true ∧
    origin_bad_index.p_node_proxy.get_nports ≤ origin_bad_index.port_index_from ∧
    target_node_clean.sceneEventFilter (Item.node origin_bad_index)
      (QEvent.graphicsSceneMouseMove ⟨105, 5⟩) = none := by
  decide

/-- C7, amended: only the release path avoids indexed metadata reads (it
consults the bounded hover vector and emits the stale index without
dereferencing it); the relay path performs no bounds check, and any
relayed move that leaves a port hovered while the origin's
`port_index_from` is out of range reads port metadata out of bounds
(`none` in the embedding) instead of being ignored. -/
theorem C7_amended_relay_reads_oob (self node : GNodeGUI.GraphicsNode)
    (sp : GNodeGUI.Point)
    (hstart : node.has_connection_started = true)
    (hoob : node.p_node_proxy.get_port_type node.port_index_from = none)
    (hwf : self.is_port_hovered.length = self.p_node_proxy.get_nports)
    (hhit : ((({ self with data_type_connecting := node.data_type_connecting }
        : GraphicsNode).update_is_port_hovered
        (sp.sub self.scene_pos)).1.is_port_hovered.any (fun b => b)) = true) :
    self.sceneEventFilter (Item.node node)
      (QEvent.graphicsSceneMouseMove sp) = none := by
  rw [sceneEventFilter_move_eq self node sp hstart]
  have hupd : (({ self with data_type_connecting := node.data_type_connecting }
      : GraphicsNode).update_is_port_hovered (sp.sub self.scene_pos)).2 = true := by
    by_contra hfalse
    obtain ⟨hid, hall⟩ := update_is_port_hovered_false
      { self with data_type_connecting := node.data_type_connecting }
      (sp.sub self.scene_pos) (by simpa using hfalse)
    rw [hid] at hhit
    obtain ⟨k, hk, hg⟩ := exists_getD_true_of_any _ hhit
    have := getD_false_of_all_false _ hall k
    rw [hg] at this
    exact absurd this (by simp)
  rw [if_pos hupd]
  obtain ⟨k, hk, hg⟩ := exists_getD_true_of_any _ hhit
  obtain ⟨fl2, hfl2, hlen2⟩ := update_is_port_hovered_shape
    { self with data_type_connecting := node.data_type_connecting }
    (sp.sub self.scene_pos)
  apply compat_loop_oob node hoob
  refine ⟨k, ?_, hg⟩
  apply List.mem_range.mpr
  rw [hfl2] at hk
  simp only at hk
  rw [hlen2] at hk
  simpa [hwf] using hk

/-- C7, witness for the amended theorem at the concrete stale-index
fixture. -/
theorem C7_amended_witness :
    origin_bad_index.has_connection_started = true ∧
    origin_bad_index.p_node_proxy.get_port_type
      origin_bad_index.port_index_from = none ∧
    target_node_clean.sceneEventFilter (Item.node origin_bad_index)
      (QEvent.graphicsSceneMouseMove ⟨105, 5⟩) = none :=
  ⟨by decide, by decide,
   C7_amended_relay_reads_oob target_node_clean origin_bad_index ⟨105, 5⟩
     (by decide) (by decide) (by decide) (by decide)⟩

/-! ## Release: C1, C3 and C10 -/

/-- The first `GraphicsNode` among the items under the pointer, in
front-to-back stacking order (what `dynamic_cast` finds first in the
release loop). -/
def first_node : List Item → Option GraphicsNode
  | [] => none
  | Item.node n :: _ => some n
  | Item.other :: rest => first_node rest

/-- The release loop is decided entirely by the first node under the
pointer: it emits `connection_finished` for its hovered port or reports a
drop, and never looks further down the stacking order. -/
lemma release_scan_eq (self : GNodeGUI.GraphicsNode) (items : List Item) :
    self.release_scan items =
      match first_node items with
      | some tn =>
        match tn.get_hovered_port_index with
        | some k =>
            (false, [Signal.connection_finished self.p_node_proxy.id
                       self.port_index_from tn.p_node_proxy.id k])
        | none => (true, [])
      | none => (true, []) := by
  induction items with
  | nil => rfl
  | cons item rest ih =>
    cases item with
    | node tn => rfl
    | other =>
      simpa only [GraphicsNode.release_scan, first_node] using ih

/-- The left-button release while a connection is started, flattened: the
origin is fully reset, every node in the rest of the scene gets its
`data_type_connecting` cleared (hover flags untouched), and the signals
are the scan's plus a drop signal when the scan reported one. -/
lemma mouseReleaseEvent_left_started (self : GNodeGUI.GraphicsNode)
    (items others : List Item) (rp : GNodeGUI.Point)
    (hstart : self.has_connection_started = true) :
    self.mouseReleaseEvent Button.LeftButton items others rp =
      ({ self.reset_is_port_hovered with
           has_connection_started := false
           data_type_connecting := "", is_movable := true },
       others.map (fun item =>
         match item with
         | Item.node node => Item.node { node with data_type_connecting := "" }
         | Item.other => Item.other),
       (self.release_scan items).2 ++
         (if (self.release_scan items).1 then
            [Signal.connection_dropped self.p_node_proxy.id
               self.port_index_from rp]
          else [])) := by
  simp only [GraphicsNode.mouseReleaseEvent]
  rw [if_pos hstart]

/-- C1, confirmed.  On a primary-button release during a drag, the emitted
signals are decided by the first `NodeView` in stacking order under the
release point: `connection_finished` with its hovered port if it has one,
otherwise `connection_dropped` at the release scene position — also when
no node is under the point at all.  A node further down the stacking order
is never considered. -/
theorem C1_release_decided_by_first_node (self : GNodeGUI.GraphicsNode)
    (items others : List Item) (rp : GNodeGUI.Point)
    (hstart : self.has_connection_started = true) :
    (self.mouseReleaseEvent Button.LeftButton items others rp).2.2 =
      match first_node items with
      | some tn =>
        match tn.get_hovered_port_index with
        | some k =>
            [Signal.connection_finished self.p_node_proxy.id
               self.port_index_from tn.p_node_proxy.id k]
        | none =>
            [Signal.connection_dropped self.p_node_proxy.id
               self.port_index_from rp]
      | none =>
          [Signal.connection_dropped self.p_node_proxy.id
             self.port_index_from rp] := by
  rw [mouseReleaseEvent_left_started self items others rp hstart,
    release_scan_eq]
  cases hfn : first_node items with
  | none => simp
  | some tn =>
    cases hhov : tn.get_hovered_port_index with
    | some k => simp [hhov]
    | none => simp [hhov]

/-- C1, witness: the first node under the release point has no hovered
port, so the gesture drops — even though a node with a hovered port lies
beneath it in stacking order. -/
theorem C1_witness :
    origin_started.has_connection_started = true ∧
    target_node_clean.get_hovered_port_index = none ∧
    target_after_move.get_hovered_port_index = some 0 ∧
    (origin_started.mouseReleaseEvent Button.LeftButton
        [Item.other, Item.node target_node_clean, Item.node target_after_move]
        [] ⟨50, 50⟩).2.2 =
      [Signal.connection_dropped "n1" 0 ⟨50, 50⟩] :=
  ⟨by decide, by decide, by decide,
   C1_release_decided_by_first_node origin_started
     [Item.other, Item.node target_node_clean, Item.node target_after_move]
     [] ⟨50, 50⟩ (by decide)⟩

/-- C3, counterexample.  The claim requires every view in the scene to end
the gesture with all hover flags false.  The release resets the hover
flags of the ORIGIN only; a target view that ends the gesture hovered (the
successful drop target itself) keeps its hovered entry set after
resolution — only its `connectingDataType` is cleared by the scene-wide
loop. -/
theorem C3_counterexample :
    origin_started.has_connection_started = true ∧
    (origin_started.mouseReleaseEvent Button.LeftButton
        [Item.node target_after_move] [Item.node target_after_move]
        ⟨105, 5⟩).2.2 =
      [Signal.connection_finished "n1" 0 "n2" 0] ∧
    ((origin_started.mouseReleaseEvent Button.LeftButton
        [Item.node target_after_move] [Item.node target_after_move]
        ⟨105, 5⟩).2.1.all
      (fun item =>
        match item with
        | Item.node nd => nd.is_port_hovered.count true == 0
        | Item.other => true)) = false := by
  decide

/-- C3, amended: after a left release resolving the gesture (either
outcome), the ORIGIN has all hover flags cleared, empty
`connectingDataType`, drag flag down and movability restored, and every
other node of the scene has its `connectingDataType` cleared — but the
other views' hover flags are left as they were. -/
theorem C3_amended_cleanup (self : GNodeGUI.GraphicsNode)
    (items others : List Item) (rp : GNodeGUI.Point)
    (hstart : self.has_connection_started = true) :
    (self.mouseReleaseEvent Button.LeftButton items others
        rp).1.is_port_hovered.count true = 0 ∧
    (self.mouseReleaseEvent Button.LeftButton items others
        rp).1.data_type_connecting = "" ∧
    (self.mouseReleaseEvent Button.LeftButton items others
        rp).1.has_connection_started = false ∧
    (self.mouseReleaseEvent Button.LeftButton items others
        rp).1.is_movable = true ∧
    ((self.mouseReleaseEvent Button.LeftButton items others rp).2.1.all
      (fun item =>
        match item with
        | Item.node nd => nd.data_type_connecting == ""
        | Item.other => true)) = true := by
  rw [mouseReleaseEvent_left_started self items others rp hstart]
  refine ⟨?_, rfl, rfl, rfl, ?_⟩
  · exact count_true_eq_zero_of_all_false _
      (fun b hb => List.eq_of_mem_replicate hb)
  · rw [List.all_eq_true]
    intro item hmem
    rw [List.mem_map] at hmem
    obtain ⟨item0, _, rfl⟩ := hmem
    cases item0 with
    | node nd => rfl
    | other => rfl

/-- C3, witness for the amended cleanup theorem at a concrete successful
drop. -/
theorem C3_amended_witness :
    origin_started.has_connection_started = true ∧
    (origin_started.mouseReleaseEvent Button.LeftButton
        [Item.node target_after_move] [Item.node target_after_move]
        ⟨105, 5⟩).1.is_port_hovered.count true = 0 :=
  ⟨by decide,
   (C3_amended_cleanup origin_started [Item.node target_after_move]
     [Item.node target_after_move] ⟨105, 5⟩ (by decide)).1⟩

/-- C10, confirmed.  If the first node under the release point is the
origin itself and the origin has a hovered port, the release emits
`connection_finished` with the origin as both endpoints; no
direction/data-type compatibility is checked on this path (the relay's
compatibility rule only runs on non-origin views, and the origin's hover
flags come from its own unfiltered hover handler). -/
theorem C10_self_connection (self : GNodeGUI.GraphicsNode)
    (items others : List Item) (rp : GNodeGUI.Point) (k : Nat)
    (hstart : self.has_connection_started = true)
    (hfirst : first_node items = some self)
    (hhov : self.get_hovered_port_index = some k) :
    (self.mouseReleaseEvent Button.LeftButton items others rp).2.2 =
      [Signal.connection_finished self.p_node_proxy.id self.port_index_from
         self.p_node_proxy.id k] := by
  rw [mouseReleaseEvent_left_started self items others rp hstart,
    release_scan_eq]
  simp [hfirst, hhov]

/-- C10, witness: releasing over the origin itself while its (OUT) origin
port is still hovered yields a self-connection from port 0 to port 0 —
two OUT ports of the same data type, which the compatibility rule would
reject, yet `connection_finished` is emitted. -/
theorem C10_witness :
    origin_started.has_connection_started = true ∧
    first_node [Item.node origin_started] = some origin_started ∧
    origin_started.get_hovered_port_index = some 0 ∧
    origin_started.p_node_proxy.get_port_type origin_started.port_index_from
      = some PortType.OUT ∧
    origin_started.p_node_proxy.get_port_type 0 = some PortType.OUT ∧
    (origin_started.mouseReleaseEvent Button.LeftButton
        [Item.node origin_started] [] ⟨7, 7⟩).2.2 =
      [Signal.connection_finished "n1" 0 "n1" 0] :=
  ⟨by decide, by decide, by decide, by decide, by decide,
   C10_self_connection origin_started [Item.node origin_started] [] ⟨7, 7⟩ 0
     (by decide) (by decide) (by decide)⟩

/-- C5, witness for the amended theorem: from a clean hover state,
pressing over port 0 of the two-port node starts
the drag from port 0 with data type "float". -/
theorem C5_witness :
    hover_clean_node.wf ∧
    hover_clean_node.is_port_hovered.count true = 0 ∧
    (hover_clean_node.hoverMoveEvent ⟨5, 5⟩).mousePressEvent
        Button.LeftButton ⟨5, 5⟩ =
      some ({ hover_clean_node with
                is_port_hovered := [true, false],
                has_connection_started := true,
                is_movable := false,
                port_index_from := 0,
                data_type_connecting := "float" },
            [Signal.connection_started "n1" 0]) :=
  ⟨by decide, by decide,
   C5_press_on_port_starts_drag hover_clean_node ⟨5, 5⟩ ⟨5, 5⟩
     (by decide) (by decide)⟩

/-! ## C8 — the per-port outline precedence -/

/-- A style with pairwise distinct constants, to tell the pens apart. -/
def cex_style : NodeStyle :=
  { color_bg := "bg", color_caption := "cap", color_selected := "sel",
    color_border := "bor", color_border_hovered := "borhov",
    color_port_hovered := "porthov", color_port_not_selectable := "mute",
    thickness_selected := 4, thickness_hovered := 3, thickness_border := 1,
    port_radius := 6, port_radius_not_selectable := 2 }

/-- The clean two-port view, selected. -/
def selected_node : GraphicsNode :=
  { hover_clean_node with is_selected := true }

/-- C8, counterexample.  The claim gives the port outline the precedence
selected > hovered > default.  The port loop of `paint` never consults the
selection flag: on a selected, unhovered node the port outline is drawn
with the DEFAULT border pen, not the selection pen. -/
theorem C8_counterexample :
    selected_node.is_selected = true ∧
    selected_node.is_node_hovered = false ∧
    selected_node.is_port_hovered.getD 0 false = false ∧
    port_outline_pen cex_style selected_node 0 = Pen.mk "bor" 1 ∧
    Pen.mk "bor" 1 ≠ Pen.mk "sel" 4 ∧
    DrawCmd.portCircle 0 (Pen.mk "bor" 1) "float" 6 ∈
      selected_node.paint cex_style (fun s => s) := by
  decide

/-- C8, amended: the port outline ignores selection entirely; its
precedence is port-hovered (drawn with `color_port_hovered` at the
SELECTION thickness) > node-hovered > default. -/
theorem C8_amended_port_outline (style : NodeStyle)
    (n : GNodeGUI.GraphicsNode) (k : Nat) (b : Bool) :
    port_outline_pen style { n with is_selected := b } k
      = port_outline_pen style n k ∧
    (n.is_port_hovered.getD k false = true →
      port_outline_pen style n k
        = Pen.mk style.color_port_hovered style.thickness_selected) ∧
    (n.is_port_hovered.getD k false = false → n.is_node_hovered = true →
      port_outline_pen style n k
        = Pen.mk style.color_border_hovered style.thickness_hovered) ∧
    (n.is_port_hovered.getD k false = false → n.is_node_hovered = false →
      port_outline_pen style n k
        = Pen.mk style.color_border style.thickness_border) := by
  unfold port_outline_pen
  refine ⟨rfl, ?_, ?_, ?_⟩
  · intro h
    rw [h]
    simp
  · intro h1 h2
    rw [h1, h2]
    simp
  · intro h1 h2
    rw [h1, h2]
    simp

/-- C8, witness: a hovered port takes the hover color at the selection
thickness. -/
theorem C8_amended_witness :
    hover_cex_node.is_port_hovered.getD 0 false = true ∧
    port_outline_pen cex_style hover_cex_node 0 = Pen.mk "porthov" 4 :=
  ⟨by decide,
   (C8_amended_port_outline cex_style hover_cex_node 0 true).2.1 (by decide)⟩

/-! ## C9 — the right-click signal -/

/-- C9, counterexample.  The claim says the `rightClicked` signal carries
the press event's scene position.  The handler emits `this->scenePos()` —
the NODE's own scene position: pressing at scene point (5, 5) on a node
anchored at (0, 0) reports (0, 0). -/
theorem C9_counterexample :
    hover_cex_node.scene_pos = ⟨0, 0⟩ ∧
    hover_cex_node.mousePressEvent Button.RightButton ⟨5, 5⟩ =
      some (hover_cex_node, [Signal.right_clicked "n1" ⟨0, 0⟩]) ∧
    Signal.right_clicked "n1" (⟨0, 0⟩ : GNodeGUI.Point)
      ≠ Signal.right_clicked "n1" ⟨5, 5⟩ := by
  decide

/-- C9, amended: a secondary-button press emits `rightClicked` with the
node's stable id and the NODE's scene position (its top-left anchor, not
the pointer's position), and leaves the view's state — in particular the
connection-drag fields — untouched. -/
theorem C9_amended_right_click (n : GNodeGUI.GraphicsNode)
    (p : GNodeGUI.Point) :
    n.mousePressEvent Button.RightButton p =
      some (n, [Signal.right_clicked n.p_node_proxy.id n.scene_pos]) := rfl

end GNodeGUI
